import Mathlib

/-!
Shallow embedding of the weather rules module (`src/logic/rules.ts`) of the
repository, together with proofs of the specification claims about it.

Modelling conventions:
* JavaScript numbers are modelled as rationals (`ℚ`).  NaN is not
  representable in `ℚ`; an absent or NaN optional apparent temperature is
  modelled as `Option.none` where the source checks
  `typeof apparent === 'number' && !isNaN(apparent)`.
* `Math.round x` in JavaScript is `⌊x + 1/2⌋` (round half towards +∞); it
  is embedded as `jsRound`.  Rounding to one decimal,
  `Math.round (x * 10) / 10`, is embedded as `round1`.
* `Math.pow wind 0.16`, the only transcendental operation in the module, is
  abstracted as an arbitrary function parameter `pow016 : ℚ → ℚ`; every
  claim is independent of its value and is proved for all such functions.
* The `Hour` record of `src/logic/types.ts` declares all its fields,
  including `apparent`, as required `number`s, so `h.temp ?? h.apparent`
  reduces to `h.temp`, `(h as any).humidity ?? 50` reduces to `50`
  (`Hour` has no `humidity` field), and the `apparent` passed by
  `computeStats` to `computeApparentTemperature` is always a present value.
* JavaScript `array.reduce((s, x) => s + x, 0)` over rationals is the list
  sum; `Math.max(...xs)` / `Math.min(...xs)` over a non-empty list are
  embedded as left folds of `max` / `min` over the tail starting from the
  head.
-/

/-- JavaScript `Math.round`: rounds half towards positive infinity. -/
def jsRound (q : ℚ) : ℤ := ⌊q + 1/2⌋

/-- JavaScript `Math.round(x * 10) / 10`: rounding to one decimal place. -/
def round1 (q : ℚ) : ℚ := ((jsRound (q * 10) : ℚ)) / 10

/-- The `Hour` record of `src/logic/types.ts`: one hour of forecast data. -/
structure Hour where
  isoTime : String
  temp : ℚ
  apparent : ℚ
  pop : ℚ
  precip : ℚ
  wind : ℚ
  uv : ℚ
deriving DecidableEq, Repr

/-- `Math.max(...xs)` over a non-empty list (`0` for the empty list, which
the source never produces because every call site guards on emptiness). -/
def listMax : List ℚ → ℚ
  | [] => 0
  | x :: xs => xs.foldl max x

/-- `Math.min(...xs)` over a non-empty list (`0` for the empty list). -/
def listMin : List ℚ → ℚ
  | [] => 0
  | x :: xs => xs.foldl min x

/-- `computeApparentTemperature` from `src/logic/rules.ts` lines 18–36.
`pow016 w` stands for `Math.pow(w, 0.16)`. -/
def computeApparentTemperature (pow016 : ℚ → ℚ)
    (temp humidity wind : ℚ) (apparent : Option ℚ) : ℚ :=
  match apparent with
  | some a => a
  | none =>
    -- Heat Index (Rothfusz regression), `temp >= 27 && humidity >= 40`
    if 27 ≤ temp ∧ 40 ≤ humidity then
      round1 (-8.784695 + 1.61139411 * temp + 2.338549 * humidity
        - 0.14611605 * temp * humidity - 0.012308094 * temp * temp
        - 0.016424828 * humidity * humidity
        + 0.002211732 * temp * temp * humidity
        + 0.00072546 * temp * humidity * humidity
        - 0.000003582 * temp * temp * humidity * humidity)
    -- Wind Chill (Environment Canada), `temp <= 10 && wind >= 4.8`
    else if temp ≤ 10 ∧ 4.8 ≤ wind then
      round1 (13.12 + 0.6215 * temp - 11.37 * pow016 wind
        + 0.3965 * temp * pow016 wind)
    else
      round1 temp

/-- The `HourlyStats` shape of `src/logic/rules.ts` (also the anonymous
record returned by `computeStats`). -/
structure HourlyStats where
  minApparent : ℚ
  maxApparent : ℚ
  avgApparent : ℚ
  maxPOP : ℚ
  sumPrecip : ℚ
  maxUV : ℚ
  maxWind : ℚ
deriving DecidableEq, Repr

/-- `computeStats` from `src/logic/rules.ts` lines 53–86.  Per the `Hour`
type, `h.temp ?? h.apparent` is `h.temp`, `(h as any).humidity ?? 50` is
`50`, and `apparent: h.apparent` is a present number. -/
def computeStats (pow016 : ℚ → ℚ) (hours : List Hour) : HourlyStats :=
  match hours with
  | [] =>
    { minApparent := 0, maxApparent := 0, avgApparent := 0,
      maxPOP := 0, sumPrecip := 0, maxUV := 0, maxWind := 0 }
  | _ =>
    let apparentTemps := hours.map fun h =>
      computeApparentTemperature pow016 h.temp 50 h.wind (some h.apparent)
    { minApparent := (jsRound (listMin apparentTemps) : ℚ)
      maxApparent := (jsRound (listMax apparentTemps) : ℚ)
      avgApparent :=
        (jsRound (apparentTemps.sum / (apparentTemps.length : ℚ)) : ℚ)
      maxPOP := (jsRound (listMax (hours.map Hour.pop)) : ℚ)
      sumPrecip := round1 ((hours.map Hour.precip).sum)
      maxUV := (jsRound (listMax (hours.map Hour.uv)) : ℚ)
      maxWind := (jsRound (listMax (hours.map Hour.wind)) : ℚ) }

/-- The `WeatherAdvice` interface of `src/logic/rules.ts` lines 89–92. -/
structure WeatherAdvice where
  badges : List String
  text : String
deriving DecidableEq, Repr

/-- `buildAdvice` from `src/logic/rules.ts` lines 99–169. -/
def buildAdvice (pow016 : ℚ → ℚ) (nextHours : List Hour) : WeatherAdvice :=
  match nextHours with
  | [] => { badges := [], text := "No weather data available for guidance." }
  | _ =>
    let stats := computeStats pow016 (nextHours.take 6)
    let next3Hours := nextHours.take 3
    let max3HourPOP := listMax (next3Hours.map Hour.pop)
    let total3HourPrecip := (next3Hours.map Hour.precip).sum
    let badges : List String :=
      (if 60 ≤ max3HourPOP ∧ (0.2 : ℚ) ≤ total3HourPrecip then
        ["Umbrella recommended"] else [])
      ++ (if 6 ≤ stats.maxUV then ["Sunscreen recommended"] else [])
      ++ (if 10 ≤ stats.maxWind then ["Wind caution"] else [])
      ++ (if 25 < stats.avgApparent then ["Heat comfort tips"] else [])
      ++ (if stats.avgApparent < 0 then ["Layered clothing recommended"]
          else [])
    let text := "Weather conditions for the next 6 hours: "
    let text := text ++
      (if stats.avgApparent < 0 then
        "very cold temperatures with possible wind chill effects"
      else if 25 < stats.avgApparent then
        "warm to hot conditions with elevated comfort concerns"
      else if 15 ≤ stats.avgApparent then
        "pleasant temperatures suitable for most outdoor activities"
      else
        "cool conditions requiring appropriate clothing")
    let text := text ++
      (if 60 ≤ max3HourPOP then ", with rain likely in the next 3 hours"
      else if 30 ≤ max3HourPOP then ", with possible precipitation"
      else "")
    let text := text ++
      (if 10 ≤ stats.maxWind then ", and notable wind activity" else "")
    let text := text ++
      (if 6 ≤ stats.maxUV then ", with elevated UV exposure" else "")
    { badges := badges, text := text ++ "." }

/-- The `OutfitAdvice` interface of `src/logic/rules.ts` lines 187–194.
The `category` and `severity` string-union types are embedded as `String`. -/
structure OutfitAdvice where
  id : String
  category : String
  message : String
  icon : String
  severity : String
  color : String
deriving DecidableEq, Repr

/-- The result shape of `sliceNextHours`. -/
structure SliceResult where
  hours : List Hour
  stats : HourlyStats
deriving DecidableEq, Repr

/-- `sliceNextHours` from `src/logic/rules.ts` lines 197–232 (default
window size 6; no rounding is applied to any aggregate). -/
def sliceNextHours (hours : List Hour) (n : ℕ := 6) : SliceResult :=
  let nextHours := hours.take n
  match nextHours with
  | [] =>
    { hours := []
      stats :=
        { minApparent := 0, maxApparent := 0, avgApparent := 0,
          maxPOP := 0, sumPrecip := 0, maxUV := 0, maxWind := 0 } }
  | _ =>
    let apparentTemps := nextHours.map Hour.apparent
    { hours := nextHours
      stats :=
        { minApparent := listMin apparentTemps
          maxApparent := listMax apparentTemps
          avgApparent := apparentTemps.sum / (apparentTemps.length : ℚ)
          maxPOP := listMax (nextHours.map Hour.pop)
          sumPrecip := (nextHours.map Hour.precip).sum
          maxUV := listMax (nextHours.map Hour.uv)
          maxWind := listMax (nextHours.map Hour.wind) } }

/-- The "Temperature-based clothing advice" group of `generateOutfitAdvice`
(`src/logic/rules.ts` lines 246–282): a single if/else-if chain. -/
def clothingAdvice (stats : HourlyStats) : List OutfitAdvice :=
  if stats.minApparent ≤ 0 then
    [{ id := "heavy-coat", category := "clothing",
       message := "Wear a heavy winter coat, gloves, and warm hat. It feels freezing cold!",
       icon := "🧥", severity := "high", color := "#1e40af" }]
  else if stats.minApparent ≤ 10 then
    [{ id := "warm-layers", category := "clothing",
       message := "Dress in warm layers with a jacket. It\x27s quite chilly out there.",
       icon := "🧥", severity := "medium", color := "#3b82f6" }]
  else if 30 ≤ stats.maxApparent then
    [{ id := "light-clothing", category := "clothing",
       message := "Wear light, breathable clothing. It\x27s going to be hot!",
       icon := "👕", severity := "medium", color := "#f59e0b" }]
  else if 25 ≤ stats.maxApparent then
    [{ id := "comfortable-clothing", category := "clothing",
       message := "Dress comfortably in light layers. Perfect weather for being outside!",
       icon := "👕", severity := "low", color := "#10b981" }]
  else []

/-- The "Temperature range advice" group of `generateOutfitAdvice`
(`src/logic/rules.ts` lines 285–294), independent of the clothing chain. -/
def rangeAdvice (stats : HourlyStats) : List OutfitAdvice :=
  if 15 < stats.maxApparent - stats.minApparent then
    [{ id := "layered-clothing", category := "clothing",
       message := "Temperature will vary a lot - dress in layers you can add or remove.",
       icon := "🔄", severity := "medium", color := "#8b5cf6" }]
  else []

/-- The "Precipitation advice" group of `generateOutfitAdvice`
(`src/logic/rules.ts` lines 297–315). -/
def rainAdvice (stats : HourlyStats) : List OutfitAdvice :=
  if 70 ≤ stats.maxPOP ∨ 2 < stats.sumPrecip then
    [{ id := "umbrella-rain", category := "accessories",
       message := "Bring an umbrella or waterproof jacket. Rain is very likely!",
       icon := "☔", severity := "high", color := "#3b82f6" }]
  else if 40 ≤ stats.maxPOP ∨ (0.5 : ℚ) < stats.sumPrecip then
    [{ id := "umbrella-maybe", category := "accessories",
       message := "Consider bringing an umbrella - there\x27s a chance of rain.",
       icon := "🌦️", severity := "medium", color := "#6b7280" }]
  else []

/-- The "UV protection advice" group of `generateOutfitAdvice`
(`src/logic/rules.ts` lines 318–345). -/
def uvAdvice (stats : HourlyStats) : List OutfitAdvice :=
  if 8 ≤ stats.maxUV then
    [{ id := "sunscreen-high", category := "safety",
       message := "Apply SPF 30+ sunscreen and wear sunglasses. UV levels are very high!",
       icon := "☀️", severity := "high", color := "#f59e0b" }]
  else if 6 ≤ stats.maxUV then
    [{ id := "sunscreen-medium", category := "safety",
       message := "Don\x27t forget sunscreen and a hat. UV levels are moderate to high.",
       icon := "🧴", severity := "medium", color := "#f59e0b" }]
  else if 3 ≤ stats.maxUV then
    [{ id := "sunglasses", category := "comfort",
       message := "Sunglasses recommended for comfort in bright conditions.",
       icon := "🕶️", severity := "low", color := "#10b981" }]
  else []

/-- The "Wind advice" group of `generateOutfitAdvice`
(`src/logic/rules.ts` lines 348–366). -/
def windAdvice (stats : HourlyStats) : List OutfitAdvice :=
  if 50 ≤ stats.maxWind then
    [{ id := "wind-warning", category := "safety",
       message := "Very windy conditions! Secure loose items and be careful outdoors.",
       icon := "💨", severity := "high", color := "#dc2626" }]
  else if 30 ≤ stats.maxWind then
    [{ id := "wind-caution", category := "comfort",
       message := "It\x27s quite windy - consider a windbreaker or secure hat.",
       icon := "🌬️", severity := "medium", color := "#f59e0b" }]
  else []

/-- The "General comfort advice" group of `generateOutfitAdvice`
(`src/logic/rules.ts` lines 369–378). -/
def comfortAdvice (stats : HourlyStats) : List OutfitAdvice :=
  if 20 ≤ stats.avgApparent ∧ stats.avgApparent ≤ 25
      ∧ stats.maxPOP < 30 ∧ stats.maxWind < 20 then
    [{ id := "perfect-weather", category := "comfort",
       message := "Perfect weather for outdoor activities! Enjoy your time outside.",
       icon := "🌟", severity := "low", color := "#10b981" }]
  else []

/-- `generateOutfitAdvice` from `src/logic/rules.ts` lines 242–381: the
sequential `advice.push(...)` groups, concatenated in source order. -/
def generateOutfitAdvice (stats : HourlyStats) : List OutfitAdvice :=
  clothingAdvice stats ++ rangeAdvice stats ++ rainAdvice stats
    ++ uvAdvice stats ++ windAdvice stats ++ comfortAdvice stats

/-! ### Helper lemmas -/

@[simp] lemma computeApparentTemperature_some (pow016 : ℚ → ℚ)
    (temp humidity wind a : ℚ) :
    computeApparentTemperature pow016 temp humidity wind (some a) = a := rfl

lemma le_foldl_max (l : List ℚ) (a : ℚ) : a ≤ l.foldl max a := by
  induction l generalizing a with
  | nil => exact le_refl a
  | cons x xs ih => exact le_trans (le_max_left a x) (ih (max a x))

lemma mem_le_foldl_max (l : List ℚ) : ∀ a x : ℚ, x ∈ l → x ≤ l.foldl max a := by
  induction l with
  | nil => intro a x hx; cases hx
  | cons y ys ih =>
    intro a x hx
    rcases List.mem_cons.mp hx with h | h
    · subst h; exact le_trans (le_max_right a x) (le_foldl_max ys (max a x))
    · exact ih (max a y) x h

lemma le_listMax {l : List ℚ} {x : ℚ} (hx : x ∈ l) : x ≤ listMax l := by
  cases l with
  | nil => cases hx
  | cons y ys =>
    rcases List.mem_cons.mp hx with h | h
    · subst h
      simpa [listMax] using le_foldl_max ys x
    · simpa [listMax] using mem_le_foldl_max ys y x h

lemma foldl_min_le (l : List ℚ) (a : ℚ) : l.foldl min a ≤ a := by
  induction l generalizing a with
  | nil => exact le_refl a
  | cons x xs ih => exact le_trans (ih (min a x)) (min_le_left a x)

lemma foldl_min_le_mem (l : List ℚ) : ∀ a x : ℚ, x ∈ l → l.foldl min a ≤ x := by
  induction l with
  | nil => intro a x hx; cases hx
  | cons y ys ih =>
    intro a x hx
    rcases List.mem_cons.mp hx with h | h
    · subst h; exact le_trans (foldl_min_le ys (min a x)) (min_le_right a x)
    · exact ih (min a y) x h

lemma listMin_le {l : List ℚ} {xq : ℚ} (hx : xq ∈ l) : listMin l ≤ xq := by
  cases l with
  | nil => cases hx
  | cons y ys =>
    rcases List.mem_cons.mp hx with h | h
    · subst h
      simpa [listMin] using foldl_min_le ys xq
    · simpa [listMin] using foldl_min_le_mem ys y xq h

lemma length_cast_pos {l : List ℚ} (hl : l ≠ []) : (0 : ℚ) < (l.length : ℚ) := by
  exact_mod_cast List.length_pos.mpr hl

lemma avg_le_listMax (l : List ℚ) (hl : l ≠ []) :
    l.sum / (l.length : ℚ) ≤ listMax l := by
  rw [div_le_iff₀ (length_cast_pos hl), mul_comm]
  have h := List.sum_le_card_nsmul l (listMax l) fun x hx => le_listMax hx
  rwa [nsmul_eq_mul] at h

lemma listMin_le_avg (l : List ℚ) (hl : l ≠ []) :
    listMin l ≤ l.sum / (l.length : ℚ) := by
  rw [le_div_iff₀ (length_cast_pos hl), mul_comm]
  have h := List.card_nsmul_le_sum l (listMin l) fun x hx => listMin_le hx
  rwa [nsmul_eq_mul] at h

lemma jsRound_mono {x y : ℚ} (h : x ≤ y) : jsRound x ≤ jsRound y :=
  Int.floor_le_floor (by linarith)

lemma jsRound_cast_den (q : ℚ) : ((jsRound q : ℚ)).den = 1 := Rat.den_intCast _

lemma round1_mul_ten_den (q : ℚ) : ((10 : ℚ) * round1 q).den = 1 := by
  rw [round1, mul_comm, div_mul_cancel₀ _ (by norm_num : (10:ℚ) ≠ 0)]
  exact Rat.den_intCast _

/-! ### C1 -/

/-- C1: `computeApparentTemperature` evaluates its branches in the strict
order measured-passthrough, heat index, wind chill, air-temp fallback,
first match winning: a present (valid) measured apparent temperature is
returned exactly; otherwise if `27 ≤ airTemp` and `40 ≤ humidity` the
heat-index polynomial rounded to 1 decimal is returned; otherwise if
`airTemp ≤ 10` and `4.8 ≤ windSpeed` the wind-chill value
`13.12 + 0.6215·T − 11.37·V^0.16 + 0.3965·T·V^0.16` rounded to 1 decimal
is returned; otherwise `airTemp` rounded to 1 decimal is returned. -/
theorem computeApparentTemperature_branch_order
    (pow016 : ℚ → ℚ) (temp humidity wind : ℚ) :
    (∀ a : ℚ, computeApparentTemperature pow016 temp humidity wind (some a) = a)
    ∧ (27 ≤ temp → 40 ≤ humidity →
        computeApparentTemperature pow016 temp humidity wind none =
          round1 (-8.784695 + 1.61139411 * temp + 2.338549 * humidity
            - 0.14611605 * temp * humidity - 0.012308094 * temp * temp
            - 0.016424828 * humidity * humidity
            + 0.002211732 * temp * temp * humidity
            + 0.00072546 * temp * humidity * humidity
            - 0.000003582 * temp * temp * humidity * humidity))
    ∧ (¬(27 ≤ temp ∧ 40 ≤ humidity) → temp ≤ 10 → 4.8 ≤ wind →
        computeApparentTemperature pow016 temp humidity wind none =
          round1 (13.12 + 0.6215 * temp - 11.37 * pow016 wind
            + 0.3965 * temp * pow016 wind))
    ∧ (¬(27 ≤ temp ∧ 40 ≤ humidity) → ¬(temp ≤ 10 ∧ 4.8 ≤ wind) →
        computeApparentTemperature pow016 temp humidity wind none =
          round1 temp) := by
  refine ⟨fun a => rfl, ?_, ?_, ?_⟩
  · intro h1 h2
    show (if 27 ≤ temp ∧ 40 ≤ humidity then _ else _) = _
    rw [if_pos ⟨h1, h2⟩]
  · intro hn h1 h2
    show (if 27 ≤ temp ∧ 40 ≤ humidity then _ else _) = _
    rw [if_neg hn, if_pos ⟨h1, h2⟩]
  · intro hn1 hn2
    show (if 27 ≤ temp ∧ 40 ≤ humidity then _ else _) = _
    rw [if_neg hn1, if_neg hn2]

/-- Witness for C1, at concrete inputs exercising the passthrough and the
wind-chill branch. -/
theorem computeApparentTemperature_branch_order_witness :
    computeApparentTemperature (fun _ => 1) 5 50 6 (some 3) = 3
    ∧ computeApparentTemperature (fun _ => 1) 5 50 6 none =
        round1 (13.12 + 0.6215 * 5 - 11.37 * (fun _ => (1:ℚ)) 6
          + 0.3965 * 5 * (fun _ => (1:ℚ)) 6) := by
  obtain ⟨hpass, _, hwc, _⟩ :=
    computeApparentTemperature_branch_order (fun _ => 1) 5 50 6
  exact ⟨hpass 3, hwc (by norm_num) (by norm_num) (by norm_num)⟩

/-! ### Unfolding lemmas for `computeStats` and `sliceNextHours` -/

lemma computeStats_cons (pow016 : ℚ → ℚ) (h : Hour) (t : List Hour) :
    computeStats pow016 (h :: t) =
      { minApparent := (jsRound (listMin ((h :: t).map Hour.apparent)) : ℚ)
        maxApparent := (jsRound (listMax ((h :: t).map Hour.apparent)) : ℚ)
        avgApparent := (jsRound (((h :: t).map Hour.apparent).sum /
          (((h :: t).map Hour.apparent).length : ℚ)) : ℚ)
        maxPOP := (jsRound (listMax ((h :: t).map Hour.pop)) : ℚ)
        sumPrecip := round1 (((h :: t).map Hour.precip).sum)
        maxUV := (jsRound (listMax ((h :: t).map Hour.uv)) : ℚ)
        maxWind := (jsRound (listMax ((h :: t).map Hour.wind)) : ℚ) } := rfl

lemma take_ne_nil_of_ne_nil {hs : List Hour} {n : ℕ}
    (hne : hs ≠ []) (hn : 1 ≤ n) : hs.take n ≠ [] := by
  cases hs with
  | nil => exact absurd rfl hne
  | cons a l =>
    cases n with
    | zero => omega
    | succ m => simp

lemma sliceNextHours_eq (hours : List Hour) (n : ℕ)
    (hne : hours.take n ≠ []) :
    sliceNextHours hours n =
      { hours := hours.take n
        stats :=
          { minApparent := listMin ((hours.take n).map Hour.apparent)
            maxApparent := listMax ((hours.take n).map Hour.apparent)
            avgApparent := ((hours.take n).map Hour.apparent).sum /
              (((hours.take n).map Hour.apparent).length : ℚ)
            maxPOP := listMax ((hours.take n).map Hour.pop)
            sumPrecip := ((hours.take n).map Hour.precip).sum
            maxUV := listMax ((hours.take n).map Hour.uv)
            maxWind := listMax ((hours.take n).map Hour.wind) } } := by
  obtain ⟨a, l, htake⟩ : ∃ a l, hours.take n = a :: l := by
    cases h' : hours.take n with
    | nil => exact absurd h' hne
    | cons a l => exact ⟨a, l, rfl⟩
  simp only [sliceNextHours, htake]

/-! ### C6 -/

/-- C6: empty input is a defined degenerate case, never an error: for every
window size, `computeStats` and `sliceNextHours` on an empty hour sequence
return all-zero stats (and an empty window), and `buildAdvice` on an empty
sequence returns no badges and the fixed no-data text. -/
theorem empty_input_degenerate (pow016 : ℚ → ℚ) (n : ℕ) :
    computeStats pow016 [] =
      { minApparent := 0, maxApparent := 0, avgApparent := 0,
        maxPOP := 0, sumPrecip := 0, maxUV := 0, maxWind := 0 }
    ∧ sliceNextHours [] n =
      { hours := []
        stats :=
          { minApparent := 0, maxApparent := 0, avgApparent := 0,
            maxPOP := 0, sumPrecip := 0, maxUV := 0, maxWind := 0 } }
    ∧ buildAdvice pow016 [] =
      { badges := [], text := "No weather data available for guidance." } := by
  refine ⟨rfl, ?_, rfl⟩
  simp [sliceNextHours, List.take_nil]

/-! ### C7 -/

/-- C7: for every non-empty window, the aggregated statistics satisfy
`minApparent ≤ avgApparent ≤ maxApparent`, both for the unrounded
`sliceNextHours` path and the rounded `computeStats` path. -/
theorem stats_min_le_avg_le_max (pow016 : ℚ → ℚ) (hs : List Hour) (n : ℕ)
    (hne : hs ≠ []) (hn : 1 ≤ n) :
    ((sliceNextHours hs n).stats.minApparent ≤
        (sliceNextHours hs n).stats.avgApparent
      ∧ (sliceNextHours hs n).stats.avgApparent ≤
        (sliceNextHours hs n).stats.maxApparent)
    ∧ ((computeStats pow016 hs).minApparent ≤
        (computeStats pow016 hs).avgApparent
      ∧ (computeStats pow016 hs).avgApparent ≤
        (computeStats pow016 hs).maxApparent) := by
  have htake : hs.take n ≠ [] := take_ne_nil_of_ne_nil hne hn
  constructor
  · rw [sliceNextHours_eq hs n htake]
    have hmapne : (hs.take n).map Hour.apparent ≠ [] := by
      simpa using htake
    exact ⟨listMin_le_avg _ hmapne, avg_le_listMax _ hmapne⟩
  · cases hs with
    | nil => exact absurd rfl hne
    | cons a l =>
      rw [computeStats_cons]
      have hmapne : (a :: l).map Hour.apparent ≠ [] := by simp
      constructor
      · exact_mod_cast Int.cast_le.mpr (jsRound_mono (listMin_le_avg _ hmapne))
      · exact_mod_cast Int.cast_le.mpr (jsRound_mono (avg_le_listMax _ hmapne))

/-- A concrete hour used by witnesses. -/
def witnessHour1 : Hour :=
  { isoTime := "a", temp := 1, apparent := 2, pop := 3, precip := 4,
    wind := 5, uv := 6 }

/-- A second concrete hour used by witnesses. -/
def witnessHour2 : Hour :=
  { isoTime := "b", temp := 7, apparent := 9, pop := 3, precip := 4,
    wind := 5, uv := 6 }

/-- Witness for C7 at a concrete two-hour input. -/
theorem stats_min_le_avg_le_max_witness :
    (sliceNextHours [witnessHour1, witnessHour2] 6).stats.minApparent ≤
      (sliceNextHours [witnessHour1, witnessHour2] 6).stats.avgApparent :=
  ((stats_min_le_avg_le_max (fun _ => 1) [witnessHour1, witnessHour2] 6
    (by simp) (by omega)).1).1

/-! ### C8 -/

/-- C8: every core function is deterministic: two invocations on equal
inputs produce equal outputs (the shallow embedding is a pure function, so
output lists and badge orders coincide as well). -/
theorem core_functions_deterministic (pow016 : ℚ → ℚ)
    (hs hs2 : List Hour) (stats stats2 : HourlyStats) (n n2 : ℕ)
    (t h w t2 h2 w2 : ℚ) (a a2 : Option ℚ) :
    (t = t2 → h = h2 → w = w2 → a = a2 →
      computeApparentTemperature pow016 t h w a =
        computeApparentTemperature pow016 t2 h2 w2 a2)
    ∧ (hs = hs2 → computeStats pow016 hs = computeStats pow016 hs2)
    ∧ (hs = hs2 → n = n2 → sliceNextHours hs n = sliceNextHours hs2 n2)
    ∧ (stats = stats2 →
        generateOutfitAdvice stats = generateOutfitAdvice stats2)
    ∧ (hs = hs2 → buildAdvice pow016 hs = buildAdvice pow016 hs2) := by
  refine ⟨?_, ?_, ?_, ?_, ?_⟩
  · intro e1 e2 e3 e4; rw [e1, e2, e3, e4]
  · intro e; rw [e]
  · intro e1 e2; rw [e1, e2]
  · intro e; rw [e]
  · intro e; rw [e]

/-- Witness for C8 at concrete inputs. -/
theorem core_functions_deterministic_witness :
    buildAdvice (fun _ => 1) [] = buildAdvice (fun _ => 1) [] :=
  (core_functions_deterministic (fun _ => 1) [] []
    { minApparent := 0, maxApparent := 0, avgApparent := 0, maxPOP := 0,
      sumPrecip := 0, maxUV := 0, maxWind := 0 }
    { minApparent := 0, maxApparent := 0, avgApparent := 0, maxPOP := 0,
      sumPrecip := 0, maxUV := 0, maxWind := 0 }
    6 6 0 0 0 0 0 0 none none).2.2.2.2 rfl

/-! ### Badge and text characterization of `buildAdvice` -/

lemma mem_ite_single (c : Prop) [Decidable c] (x b : String) :
    (b ∈ (if c then [x] else [])) ↔ (b = x ∧ c) := by
  by_cases h : c <;> simp [h]

lemma buildAdvice_badges_mem (pow016 : ℚ → ℚ) (hs : List Hour)
    (hne : hs ≠ []) (b : String) :
    b ∈ (buildAdvice pow016 hs).badges ↔
      (b = "Umbrella recommended" ∧ 60 ≤ listMax ((hs.take 3).map Hour.pop)
        ∧ (0.2 : ℚ) ≤ ((hs.take 3).map Hour.precip).sum)
      ∨ (b = "Sunscreen recommended"
        ∧ 6 ≤ (computeStats pow016 (hs.take 6)).maxUV)
      ∨ (b = "Wind caution" ∧ 10 ≤ (computeStats pow016 (hs.take 6)).maxWind)
      ∨ (b = "Heat comfort tips"
        ∧ 25 < (computeStats pow016 (hs.take 6)).avgApparent)
      ∨ (b = "Layered clothing recommended"
        ∧ (computeStats pow016 (hs.take 6)).avgApparent < 0) := by
  obtain ⟨a, l, rfl⟩ : ∃ a l, hs = a :: l := by
    cases hs with
    | nil => exact absurd rfl hne
    | cons a l => exact ⟨a, l, rfl⟩
  simp only [buildAdvice, List.mem_append, mem_ite_single]
  rw [or_assoc, or_assoc, or_assoc]

lemma buildAdvice_text_eq (pow016 : ℚ → ℚ) (hs : List Hour) (hne : hs ≠ []) :
    (buildAdvice pow016 hs).text =
      "Weather conditions for the next 6 hours: " ++
        ((if (computeStats pow016 (hs.take 6)).avgApparent < 0 then
            "very cold temperatures with possible wind chill effects"
          else if 25 < (computeStats pow016 (hs.take 6)).avgApparent then
            "warm to hot conditions with elevated comfort concerns"
          else if 15 ≤ (computeStats pow016 (hs.take 6)).avgApparent then
            "pleasant temperatures suitable for most outdoor activities"
          else "cool conditions requiring appropriate clothing") ++
        ((if 60 ≤ listMax ((hs.take 3).map Hour.pop) then
            ", with rain likely in the next 3 hours"
          else if 30 ≤ listMax ((hs.take 3).map Hour.pop) then
            ", with possible precipitation"
          else "") ++
        ((if 10 ≤ (computeStats pow016 (hs.take 6)).maxWind then
            ", and notable wind activity" else "") ++
        ((if 6 ≤ (computeStats pow016 (hs.take 6)).maxUV then
            ", with elevated UV exposure" else "") ++ ".")))) := by
  obtain ⟨a, l, rfl⟩ : ∃ a l, hs = a :: l := by
    cases hs with
    | nil => exact absurd rfl hne
    | cons a l => exact ⟨a, l, rfl⟩
  simp only [buildAdvice, String.append_assoc]

/-- The four alternative temperature clauses of the summary sentence. -/
def tempClauses : List String :=
  ["very cold temperatures with possible wind chill effects",
   "warm to hot conditions with elevated comfort concerns",
   "pleasant temperatures suitable for most outdoor activities",
   "cool conditions requiring appropriate clothing"]

lemma string_append_left_cancel {p s t : String} (h : p ++ s = p ++ t) :
    s = t := by
  have hd := congrArg String.data h
  simp only [String.data_append] at hd
  exact String.ext (List.append_cancel_left hd)

lemma clause_discrim {c1 c2 s1 s2 : String} (he : c1 ++ s1 = c2 ++ s2)
    {x1 x2 : Char} (h1 : (c1 ++ s1).data.head? = some x1)
    (h2 : (c2 ++ s2).data.head? = some x2) : x1 = x2 := by
  rw [he] at h1
  rw [h1] at h2
  exact Option.some.inj h2

lemma tempClauses_append_inj {c1 c2 s1 s2 : String} (h1 : c1 ∈ tempClauses)
    (h2 : c2 ∈ tempClauses) (he : c1 ++ s1 = c2 ++ s2) : c1 = c2 := by
  simp only [tempClauses, List.mem_cons, List.not_mem_nil, or_false] at h1 h2
  rcases h1 with rfl | rfl | rfl | rfl <;> rcases h2 with rfl | rfl | rfl | rfl <;>
    first
      | rfl
      | exact absurd (clause_discrim he rfl rfl) (by decide)

/-! ### C2 -/

/-- An hour whose apparent temperature has a fractional part, separating the
rounded and unrounded aggregation paths. -/
def unroundedHour : Hour :=
  { isoTime := "t", temp := 25.4, apparent := 25.4, pop := 0, precip := 0,
    wind := 0, uv := 0 }

/-- C2 counterexample: for the one-hour input with apparent `25.4`, the
unrounded 6-hour aggregate average is `25.4 > 25`, yet `buildAdvice` does
not emit the `"Heat comfort tips"` badge — its `avgApparent > 25` check is
made against the rounded `computeStats` value (`25`), not the unrounded
aggregate, refuting the claim as stated. -/
theorem buildAdvice_unrounded_aggregates_counterexample :
    25 < (sliceNextHours [unroundedHour] 6).stats.avgApparent
    ∧ "Heat comfort tips" ∉ (buildAdvice (fun _ => 1) [unroundedHour]).badges := by
  constructor
  · norm_num [sliceNextHours, listMin, listMax, unroundedHour]
  · norm_num [buildAdvice, computeStats, computeApparentTemperature, jsRound,
      round1, listMax, listMin, unroundedHour]

/-- C2 amended: the four stats threshold comparisons of `buildAdvice`
(`avgApparent > 25`, `avgApparent < 0`, `maxUV ≥ 6`, `maxWind ≥ 10`) are
performed against the rounded integer statistics returned by
`computeStats` over the 6-hour window — the same rounded values exposed
for display — not against unrounded aggregates. -/
theorem buildAdvice_thresholds_use_rounded_stats (pow016 : ℚ → ℚ)
    (hs : List Hour) (hne : hs ≠ []) :
    ("Heat comfort tips" ∈ (buildAdvice pow016 hs).badges ↔
      25 < (computeStats pow016 (hs.take 6)).avgApparent)
    ∧ ("Layered clothing recommended" ∈ (buildAdvice pow016 hs).badges ↔
      (computeStats pow016 (hs.take 6)).avgApparent < 0)
    ∧ ("Sunscreen recommended" ∈ (buildAdvice pow016 hs).badges ↔
      6 ≤ (computeStats pow016 (hs.take 6)).maxUV)
    ∧ ("Wind caution" ∈ (buildAdvice pow016 hs).badges ↔
      10 ≤ (computeStats pow016 (hs.take 6)).maxWind)
    ∧ (∃ zAvg zUV zWind : ℤ,
        (computeStats pow016 (hs.take 6)).avgApparent = zAvg
        ∧ (computeStats pow016 (hs.take 6)).maxUV = zUV
        ∧ (computeStats pow016 (hs.take 6)).maxWind = zWind) := by
  refine ⟨?_, ?_, ?_, ?_, ?_⟩
  · rw [buildAdvice_badges_mem pow016 hs hne]; simp
  · rw [buildAdvice_badges_mem pow016 hs hne]; simp
  · rw [buildAdvice_badges_mem pow016 hs hne]; simp
  · rw [buildAdvice_badges_mem pow016 hs hne]; simp
  · have htake : hs.take 6 ≠ [] := take_ne_nil_of_ne_nil hne (by omega)
    obtain ⟨a, l, h6⟩ : ∃ a l, hs.take 6 = a :: l := by
      cases h' : hs.take 6 with
      | nil => exact absurd h' htake
      | cons a l => exact ⟨a, l, rfl⟩
    rw [h6, computeStats_cons]
    exact ⟨_, _, _, rfl, rfl, rfl⟩

/-- Witness for the amended C2 at a concrete input. -/
theorem buildAdvice_thresholds_use_rounded_stats_witness :
    "Heat comfort tips" ∈ (buildAdvice (fun _ => 1) [witnessHour1]).badges ↔
      25 < (computeStats (fun _ => 1) ([witnessHour1].take 6)).avgApparent :=
  (buildAdvice_thresholds_use_rounded_stats (fun _ => 1) [witnessHour1]
    (by simp)).1

/-! ### C3 -/

/-- C3 counterexample: `sliceNextHours` applies no rounding at all — for
the one-hour input with apparent `25.4` its `minApparent` is `25.4`, not
an integer, refuting the claim that every field except the precipitation
sum is an integer. -/
theorem sliceNextHours_not_rounded_counterexample :
    (sliceNextHours [unroundedHour] 6).stats.minApparent = 25.4
    ∧ ((sliceNextHours [unroundedHour] 6).stats.minApparent).den ≠ 1 := by
  constructor <;> norm_num [sliceNextHours, listMin, unroundedHour]

lemma ten_mul_round1 (q : ℚ) : (10 : ℚ) * round1 q = (jsRound (q * 10) : ℚ) := by
  rw [round1, mul_comm, div_mul_cancel₀ _ (by norm_num : (10:ℚ) ≠ 0)]

/-- C3 amended: the stated rounding policy (integers in every field, and
the precipitation sum at one decimal) holds for `computeStats` — the
rounded statistics path — for every input; `sliceNextHours` itself
returns unrounded aggregates (see the counterexample). -/
theorem computeStats_rounding_policy (pow016 : ℚ → ℚ) (hs : List Hour) :
    (∃ z : ℤ, (computeStats pow016 hs).minApparent = z)
    ∧ (∃ z : ℤ, (computeStats pow016 hs).maxApparent = z)
    ∧ (∃ z : ℤ, (computeStats pow016 hs).avgApparent = z)
    ∧ (∃ z : ℤ, (computeStats pow016 hs).maxPOP = z)
    ∧ (∃ z : ℤ, (computeStats pow016 hs).maxUV = z)
    ∧ (∃ z : ℤ, (computeStats pow016 hs).maxWind = z)
    ∧ (∃ z : ℤ, (10 : ℚ) * (computeStats pow016 hs).sumPrecip = z) := by
  cases hs with
  | nil =>
    refine ⟨⟨0, ?_⟩, ⟨0, ?_⟩, ⟨0, ?_⟩, ⟨0, ?_⟩, ⟨0, ?_⟩, ⟨0, ?_⟩, ⟨0, ?_⟩⟩ <;>
      simp [computeStats]
  | cons a l =>
    rw [computeStats_cons]
    exact ⟨⟨_, rfl⟩, ⟨_, rfl⟩, ⟨_, rfl⟩, ⟨_, rfl⟩, ⟨_, rfl⟩, ⟨_, rfl⟩,
      ⟨_, ten_mul_round1 _⟩⟩

/-! ### C4 -/

/-- An hour of the rain-badge scenario: `pop = 60`, moderate conditions,
parameterized by precipitation amount. -/
def rainHour (precip : ℚ) : Hour :=
  { isoTime := "t", temp := 15, apparent := 15, pop := 60, precip := precip,
    wind := 0, uv := 0 }

/-- C4: `buildAdvice` appends the `"Umbrella recommended"` badge iff the
maximum precipitation probability over the first 3 hours is `≥ 60` and the
summed precipitation over the first 3 hours is `≥ 0.2`; in particular for
`pop = [60,60,60]` and `precip = [0.1,0.1,0.05]` (sum `0.25`) the badge
fires, and for `precip = [0.05,0.05,0.05]` (sum `0.15`) it does not even
though the probability condition holds. -/
theorem umbrella_badge_iff (pow016 : ℚ → ℚ) (hs : List Hour) (hne : hs ≠ []) :
    ("Umbrella recommended" ∈ (buildAdvice pow016 hs).badges ↔
      (60 ≤ listMax ((hs.take 3).map Hour.pop)
        ∧ (0.2 : ℚ) ≤ ((hs.take 3).map Hour.precip).sum))
    ∧ "Umbrella recommended" ∈
        (buildAdvice pow016 [rainHour 0.1, rainHour 0.1, rainHour 0.05]).badges
    ∧ "Umbrella recommended" ∉
        (buildAdvice pow016
          [rainHour 0.05, rainHour 0.05, rainHour 0.05]).badges := by
  refine ⟨?_, ?_, ?_⟩
  · rw [buildAdvice_badges_mem pow016 hs hne]; simp
  · rw [buildAdvice_badges_mem pow016 _ (by simp)]
    norm_num [rainHour, listMax]
  · rw [buildAdvice_badges_mem pow016 _ (by simp)]
    norm_num [rainHour, listMax, computeStats, jsRound, round1, listMin]

/-- Witness for C4 at the concrete scenario input. -/
theorem umbrella_badge_iff_witness :
    "Umbrella recommended" ∈ (buildAdvice (fun _ => 1)
      [rainHour 0.1, rainHour 0.1, rainHour 0.05]).badges :=
  (umbrella_badge_iff (fun _ => 1)
    [rainHour 0.1, rainHour 0.1, rainHour 0.05] (by simp)).2.1

/-! ### C5 -/

/-- The four ids of the temperature-clothing if/else-if chain. -/
def chainIds : List String :=
  ["heavy-coat", "warm-layers", "light-clothing", "comfortable-clothing"]

/-- The stats of the C5 scenario: `minApparent = -5`, `maxApparent = 32`,
all other fields neutral. -/
def exampleStats5 : HourlyStats :=
  { minApparent := -5, maxApparent := 32, avgApparent := 13.5, maxPOP := 0,
    sumPrecip := 0, maxUV := 0, maxWind := 0 }

/-- The layered-clothing advisory item. -/
def layeredClothingItem : OutfitAdvice :=
  { id := "layered-clothing", category := "clothing",
    message := "Temperature will vary a lot - dress in layers you can add or remove.",
    icon := "🔄", severity := "medium", color := "#8b5cf6" }

lemma countP_chain_clothingAdvice (stats : HourlyStats) :
    (clothingAdvice stats).countP (fun a => chainIds.contains a.id) ≤ 1 := by
  rw [clothingAdvice]; split_ifs <;> decide

lemma countP_chain_rangeAdvice (stats : HourlyStats) :
    (rangeAdvice stats).countP (fun a => chainIds.contains a.id) = 0 := by
  rw [rangeAdvice]; split_ifs <;> decide

lemma countP_chain_rainAdvice (stats : HourlyStats) :
    (rainAdvice stats).countP (fun a => chainIds.contains a.id) = 0 := by
  rw [rainAdvice]; split_ifs <;> decide

lemma countP_chain_uvAdvice (stats : HourlyStats) :
    (uvAdvice stats).countP (fun a => chainIds.contains a.id) = 0 := by
  rw [uvAdvice]; split_ifs <;> decide

lemma countP_chain_windAdvice (stats : HourlyStats) :
    (windAdvice stats).countP (fun a => chainIds.contains a.id) = 0 := by
  rw [windAdvice]; split_ifs <;> decide

lemma countP_chain_comfortAdvice (stats : HourlyStats) :
    (comfortAdvice stats).countP (fun a => chainIds.contains a.id) = 0 := by
  rw [comfortAdvice]; split_ifs <;> decide

lemma id_of_mem_clothingAdvice (stats : HourlyStats) (a : OutfitAdvice)
    (ha : a ∈ clothingAdvice stats) : a.id ≠ "layered-clothing" := by
  rw [clothingAdvice] at ha
  split_ifs at ha <;>
    simp only [List.mem_singleton, List.not_mem_nil] at ha <;>
    subst ha <;> decide

lemma id_of_mem_rainAdvice (stats : HourlyStats) (a : OutfitAdvice)
    (ha : a ∈ rainAdvice stats) : a.id ≠ "layered-clothing" := by
  rw [rainAdvice] at ha
  split_ifs at ha <;>
    simp only [List.mem_singleton, List.not_mem_nil] at ha <;>
    subst ha <;> decide

lemma id_of_mem_uvAdvice (stats : HourlyStats) (a : OutfitAdvice)
    (ha : a ∈ uvAdvice stats) : a.id ≠ "layered-clothing" := by
  rw [uvAdvice] at ha
  split_ifs at ha <;>
    simp only [List.mem_singleton, List.not_mem_nil] at ha <;>
    subst ha <;> decide

lemma id_of_mem_windAdvice (stats : HourlyStats) (a : OutfitAdvice)
    (ha : a ∈ windAdvice stats) : a.id ≠ "layered-clothing" := by
  rw [windAdvice] at ha
  split_ifs at ha <;>
    simp only [List.mem_singleton, List.not_mem_nil] at ha <;>
    subst ha <;> decide

lemma id_of_mem_comfortAdvice (stats : HourlyStats) (a : OutfitAdvice)
    (ha : a ∈ comfortAdvice stats) : a.id ≠ "layered-clothing" := by
  rw [comfortAdvice] at ha
  split_ifs at ha
  · simp only [List.mem_singleton] at ha
    subst ha; decide
  · simp only [List.not_mem_nil] at ha

lemma mem_rangeAdvice (stats : HourlyStats) (a : OutfitAdvice) :
    a ∈ rangeAdvice stats ↔
      15 < stats.maxApparent - stats.minApparent ∧ a = layeredClothingItem := by
  rw [rangeAdvice, layeredClothingItem]; split_ifs with h <;> simp [h]

/-- C5: the four temperature-clothing rules form a single if/else-if chain
(at most one of their ids appears in the output), the layered-clothing rule
is evaluated independently (it fires iff the apparent-temperature swing
exceeds 15), and for `minApparent = -5`, `maxApparent = 32` exactly
`heavy-coat` and `layered-clothing` fire. -/
theorem clothing_chain_exclusive (stats : HourlyStats) :
    ((generateOutfitAdvice stats).countP (fun a => chainIds.contains a.id) ≤ 1)
    ∧ ((∃ a ∈ generateOutfitAdvice stats, a.id = "layered-clothing") ↔
        15 < stats.maxApparent - stats.minApparent)
    ∧ (generateOutfitAdvice exampleStats5).map OutfitAdvice.id =
        ["heavy-coat", "layered-clothing"] := by
  refine ⟨?_, ?_, ?_⟩
  · simp only [generateOutfitAdvice, List.countP_append]
    have h1 := countP_chain_clothingAdvice stats
    have h2 := countP_chain_rangeAdvice stats
    have h3 := countP_chain_rainAdvice stats
    have h4 := countP_chain_uvAdvice stats
    have h5 := countP_chain_windAdvice stats
    have h6 := countP_chain_comfortAdvice stats
    omega
  · constructor
    · rintro ⟨a, ha, hid⟩
      simp only [generateOutfitAdvice, List.mem_append] at ha
      rcases ha with ((((h | h) | h) | h) | h) | h
      · exact absurd hid (id_of_mem_clothingAdvice _ _ h)
      · exact ((mem_rangeAdvice _ _).mp h).1
      · exact absurd hid (id_of_mem_rainAdvice _ _ h)
      · exact absurd hid (id_of_mem_uvAdvice _ _ h)
      · exact absurd hid (id_of_mem_windAdvice _ _ h)
      · exact absurd hid (id_of_mem_comfortAdvice _ _ h)
    · intro h
      refine ⟨layeredClothingItem, ?_, rfl⟩
      simp only [generateOutfitAdvice, List.mem_append]
      exact Or.inl (Or.inl (Or.inl (Or.inl
        (Or.inr ((mem_rangeAdvice _ _).mpr ⟨h, rfl⟩)))))
  · norm_num [generateOutfitAdvice, clothingAdvice, rangeAdvice, rainAdvice,
      uvAdvice, windAdvice, comfortAdvice, exampleStats5]

/-! ### C9 -/

/-- Modelled from the claim wording of C9: the field-wise display rounding
(integers in every field, one decimal for the precipitation sum), to be
compared against the `computeStats` output. -/
def roundStatsForDisplay (s : HourlyStats) : HourlyStats :=
  { minApparent := (jsRound s.minApparent : ℚ)
    maxApparent := (jsRound s.maxApparent : ℚ)
    avgApparent := (jsRound s.avgApparent : ℚ)
    maxPOP := (jsRound s.maxPOP : ℚ)
    sumPrecip := round1 s.sumPrecip
    maxUV := (jsRound s.maxUV : ℚ)
    maxWind := (jsRound s.maxWind : ℚ) }

/-- C9: since every `Hour.apparent` in the model is a valid (non-NaN)
number, the re-resolution inside `computeStats` is the identity
(passthrough branch), so `computeStats hs` equals the field-wise rounding
of the unrounded stats of `sliceNextHours hs n` for every `n ≥ length hs`. -/
theorem computeStats_refines_sliceNextHours (pow016 : ℚ → ℚ)
    (hs : List Hour) (n : ℕ) (hn : hs.length ≤ n) :
    computeStats pow016 hs = roundStatsForDisplay (sliceNextHours hs n).stats := by
  have htake : hs.take n = hs := List.take_of_length_le hn
  cases hs with
  | nil =>
    have h0 : jsRound 0 = 0 := by norm_num [jsRound]
    simp [computeStats, sliceNextHours, roundStatsForDisplay, round1, h0]
  | cons a l =>
    rw [computeStats_cons, sliceNextHours_eq _ _ (by rw [htake]; simp), htake]
    rfl

/-- Witness for C9 at a concrete input. -/
theorem computeStats_refines_sliceNextHours_witness :
    computeStats (fun _ => 1) [witnessHour1] =
      roundStatsForDisplay (sliceNextHours [witnessHour1] 6).stats :=
  computeStats_refines_sliceNextHours (fun _ => 1) [witnessHour1] 6 (by simp)

/-! ### C10 -/

/-- C10: the badge list of `buildAdvice` never contains both
`"Heat comfort tips"` and `"Layered clothing recommended"` (their guards
`avgApparent > 25` and `avgApparent < 0` are disjoint), and exactly one of
the four temperature clauses appears in the summary sentence (immediately
after the fixed prefix). -/
theorem heat_layered_disjoint_unique_temp_clause (pow016 : ℚ → ℚ)
    (hs : List Hour) (hne : hs ≠ []) :
    ¬("Heat comfort tips" ∈ (buildAdvice pow016 hs).badges
        ∧ "Layered clothing recommended" ∈ (buildAdvice pow016 hs).badges)
    ∧ (∃! c, c ∈ tempClauses ∧ ∃ s,
        (buildAdvice pow016 hs).text =
          "Weather conditions for the next 6 hours: " ++ (c ++ s)) := by
  constructor
  · rintro ⟨hHeat, hLay⟩
    rw [buildAdvice_badges_mem pow016 hs hne] at hHeat hLay
    simp only [String.reduceEq, false_and, false_or, or_false, true_and]
      at hHeat hLay
    linarith [hHeat, hLay]
  · rw [buildAdvice_text_eq pow016 hs hne]
    by_cases h1 : (computeStats pow016 (hs.take 6)).avgApparent < 0
    · rw [if_pos h1]
      refine ⟨"very cold temperatures with possible wind chill effects",
        ⟨by simp [tempClauses], _, rfl⟩, ?_⟩
      rintro c ⟨hcmem, s, hcs⟩
      exact (tempClauses_append_inj (by simp [tempClauses]) hcmem
        (string_append_left_cancel hcs)).symm
    · rw [if_neg h1]
      by_cases h2 : 25 < (computeStats pow016 (hs.take 6)).avgApparent
      · rw [if_pos h2]
        refine ⟨"warm to hot conditions with elevated comfort concerns",
          ⟨by simp [tempClauses], _, rfl⟩, ?_⟩
        rintro c ⟨hcmem, s, hcs⟩
        exact (tempClauses_append_inj (by simp [tempClauses]) hcmem
          (string_append_left_cancel hcs)).symm
      · rw [if_neg h2]
        by_cases h3 : 15 ≤ (computeStats pow016 (hs.take 6)).avgApparent
        · rw [if_pos h3]
          refine ⟨"pleasant temperatures suitable for most outdoor activities",
            ⟨by simp [tempClauses], _, rfl⟩, ?_⟩
          rintro c ⟨hcmem, s, hcs⟩
          exact (tempClauses_append_inj (by simp [tempClauses]) hcmem
            (string_append_left_cancel hcs)).symm
        · rw [if_neg h3]
          refine ⟨"cool conditions requiring appropriate clothing",
            ⟨by simp [tempClauses], _, rfl⟩, ?_⟩
          rintro c ⟨hcmem, s, hcs⟩
          exact (tempClauses_append_inj (by simp [tempClauses]) hcmem
            (string_append_left_cancel hcs)).symm

/-- Witness for C10 at a concrete input. -/
theorem heat_layered_disjoint_unique_temp_clause_witness :
    ¬("Heat comfort tips" ∈ (buildAdvice (fun _ => 1) [witnessHour1]).badges
      ∧ "Layered clothing recommended" ∈
        (buildAdvice (fun _ => 1) [witnessHour1]).badges) :=
  (heat_layered_disjoint_unique_temp_clause (fun _ => 1) [witnessHour1]
    (by simp)).1
